import Mathlib

/-!
Verification development for the `dashboard_lib` credit-card dashboard
pipeline (`src/dashboard_lib`).  The Python source is shallowly embedded:
monetary amounts and percentage rates are exact rationals `ℚ` (the monthly
value conversion, which takes a real 12th root, is embedded over `ℝ`),
dataframes are lists of records, and the SQL inner join of
`tasas_originales` is embedded as an explicit list join.  Rounding via
`round(x, n)` / `Series.round(n)` is embedded as exact round-half-to-even
on the scaled value.
-/

namespace TC

/-! ## Rounding

`roundHE x` is round-half-to-even to an integer, the rounding used by
Python's `round` and numpy/pandas `.round`, idealised over an exact
ordered field. -/

def roundHE {α : Type} [LinearOrderedField α] [FloorRing α] (x : α) : ℤ :=
  if x - ⌊x⌋ < 1/2 then ⌊x⌋
  else if 1/2 < x - ⌊x⌋ then ⌊x⌋ + 1
  else if ⌊x⌋ % 2 = 0 then ⌊x⌋ else ⌊x⌋ + 1

/-- `round(x, 2)` / `.round(2)` of the source. -/
def round2 {α : Type} [LinearOrderedField α] [FloorRing α] (x : α) : α :=
  (roundHE (100 * x) : α) / 100

/-- `.round(1)` of the source (used once, on the reconciled original rate,
`procesamiento_tc.py` line 505). -/
def round1 {α : Type} [LinearOrderedField α] [FloorRing α] (x : α) : α :=
  (roundHE (10 * x) : α) / 10

/-! ## Effective-annual conversion

Spec §4.1 contract, written from the spec's words:
`to_effective_annual(r) = (((1 + r/100)^12) - 1) * 100` rounded to 2
decimals.  It is a total function on `ℚ` (no error path). -/

def to_effective_annual (r : ℚ) : ℚ :=
  round2 ((((1 + r/100) ^ (12:ℕ)) - 1) * 100)

/-! Each place in the source that derives an effective-annual rate from the
nominal period rate `tasa_interes`, embedded separately from its own line:
`(((((x/100)+1)**12)-1)*100).round(2)` (resp. `round(..., 2)`). -/

/-- `tasas_originales`, line 494: fallback original rate for unmatched rows. -/
def interes_ea_tasas_originales (x : ℚ) : ℚ :=
  round2 (((((x/100) + 1) ^ (12:ℕ)) - 1) * 100)

/-- `segmentacion_saldo`, line 527. -/
def interes_ea_segmentacion (x : ℚ) : ℚ :=
  round2 (((((x/100) + 1) ^ (12:ℕ)) - 1) * 100)

/-- `tasas_usura_implicita_facial`, lines 633 and 636: the column is rounded
to 2 decimals when derived and rounded to 2 decimals once more. -/
def interes_ea_facial (x : ℚ) : ℚ :=
  round2 (round2 (((((x/100) + 1) ^ (12:ℕ)) - 1) * 100))

/-- `saldo_to_mes`, line 777. -/
def interes_ea_saldo_to_mes (x : ℚ) : ℚ :=
  round2 (((((x/100) + 1) ^ (12:ℕ)) - 1) * 100)

/-- `afectacion_100pbs`, line 914. -/
def interes_ea_100pbs (x : ℚ) : ℚ :=
  round2 (((((x/100) + 1) ^ (12:ℕ)) - 1) * 100)

/-- `afectacion_historica_estimada`, line 1033. -/
def interes_ea_historica (x : ℚ) : ℚ :=
  round2 (((((x/100) + 1) ^ (12:ℕ)) - 1) * 100)

/-- `estimacion_sensibilidad`, line 1170. -/
def interes_ea_estimacion (x : ℚ) : ℚ :=
  round2 (((((x/100) + 1) ^ (12:ℕ)) - 1) * 100)

/-- `saldo_usura`, line 1439. -/
def interes_ea_saldo_usura (x : ℚ) : ℚ :=
  round2 (((((x/100) + 1) ^ (12:ℕ)) - 1) * 100)

/-! ## Monthly-value conversion

The source computes `(1+x)**(30/360)` in `afectacion_ingresos_conTasaMv`
(lines 1302 and 1347) on `x = rate_pct/100`.  The 12th root forces the
embedding over `ℝ`; the spec §4.1 contract is
`to_monthly_value(r) = (((1+r/100)^(30/360)) - 1) * 100` rounded to 2
decimals, a total function (no error path). -/

noncomputable def to_monthly_value (r : ℝ) : ℝ :=
  round2 ((((1 + r/100) ^ ((30:ℝ)/360)) - 1) * 100)

/-- Line 1302: `lambda x: round((((1+x)**(30/360))-1)*100,2)`, applied to
`tasa_usura_ea/100`. -/
noncomputable def mv_lambda_usura (x : ℝ) : ℝ :=
  round2 ((((1 + x) ^ ((30:ℝ)/360)) - 1) * 100)

/-- Line 1347: the identical lambda, applied to `tasa_ea_original/100`. -/
noncomputable def mv_lambda_original (x : ℝ) : ℝ :=
  round2 ((((1 + x) ^ ((30:ℝ)/360)) - 1) * 100)

/-! ## Usury sensitivity

A row of the reconciled dataset `df_to` as consumed by the sensitivity
functions: balance, nominal period rate and original effective-annual rate
(columns `saldo_actual_trasaccion`, `tasa_interes`, `TASA_EA`).  Each
function recomputes the current rate column `interes_ea` itself. -/

structure TasaRow where
  saldo_actual_trasaccion : ℚ
  tasa_interes : ℚ
  tasa_ea_original : ℚ
deriving DecidableEq

/-- `estimacion_sensibilidad` loop body, branch `variacion < 0`
(lines 1180-1189). -/
def sens_bajada (tasa_usura_mes variacion : ℚ) (df_mes : List TasaRow) : ℚ × ℚ :=
  let minimo := tasa_usura_mes - |variacion|
  let sel := df_mes.filter (fun r => decide (minimo ≤ interes_ea_estimacion r.tasa_interes))
  let saldo_exp := (sel.map TasaRow.saldo_actual_trasaccion).sum
  (saldo_exp, (saldo_exp * (|variacion| / 100)) * (-1))

/-- `estimacion_sensibilidad` loop body, branch `variacion > 0`
(lines 1191-1216). -/
def sens_subida (tasa_usura_mes variacion : ℚ) (df_mes : List TasaRow) : ℚ × ℚ :=
  let usura_final := tasa_usura_mes + |variacion|
  let sel := df_mes.filter (fun r => decide (tasa_usura_mes < r.tasa_ea_original))
  let tasa_final : TasaRow → ℚ := fun r =>
    if r.tasa_ea_original ≤ usura_final then r.tasa_ea_original else usura_final
  let impacto := (sel.map (fun r =>
    r.saldo_actual_trasaccion * ((tasa_final r - interes_ea_estimacion r.tasa_interes) / 100))).sum
  ((sel.map TasaRow.saldo_actual_trasaccion).sum, impacto)

/-- One iteration of the `estimacion_sensibilidad` loop: the generic
(exposed balance, P&L impact) rule for a signed shift `variacion`
(percentage points) against threshold `tasa_usura_mes`. -/
def sens_pair (tasa_usura_mes variacion : ℚ) (df_mes : List TasaRow) : ℚ × ℚ :=
  if variacion < 0 then sens_bajada tasa_usura_mes variacion df_mes
  else if 0 < variacion then sens_subida tasa_usura_mes variacion df_mes
  else (0, 0)

/-- The 7-point sweep `variaciones_usura = [-1,-0.6,-0.3,0,0.3,0.6,1]`
(line 1160). -/
def variaciones_usura : List ℚ := [-1, -6/10, -3/10, 0, 3/10, 6/10, 1]

/-- `estimacion_sensibilidad` (lines 1155-1227): one (shift, exposed, impact)
row per sweep point. -/
def estimacion_sensibilidad (df_input : List TasaRow) (tasa_usura_input : ℚ) :
    List (ℚ × ℚ × ℚ) :=
  variaciones_usura.map (fun v =>
    (v, (sens_pair tasa_usura_input v df_input).1, (sens_pair tasa_usura_input v df_input).2))

/-- `afectacion_100pbs`, rise branch (lines 922-945), before the `round`
applied when the scalars are appended for persistence. -/
def afectacion_100pbs_subida (tasa_usura : ℚ) (df_mes : List TasaRow) : ℚ × ℚ :=
  let usura_final := tasa_usura + 1
  let sel := df_mes.filter (fun r => decide (tasa_usura < r.tasa_ea_original))
  let tasa_final : TasaRow → ℚ := fun r =>
    if r.tasa_ea_original ≤ usura_final then r.tasa_ea_original else usura_final
  let impacto := (sel.map (fun r =>
    r.saldo_actual_trasaccion * ((tasa_final r - interes_ea_100pbs r.tasa_interes) / 100))).sum
  ((sel.map TasaRow.saldo_actual_trasaccion).sum, impacto)

/-- `afectacion_100pbs`, fall branch (lines 952-959): impact
`(saldo_exp * 0.01) * (-1)`. -/
def afectacion_100pbs_bajada (tasa_usura : ℚ) (df_mes : List TasaRow) : ℚ × ℚ :=
  let usura_final_bajada := tasa_usura - 1
  let sel := df_mes.filter (fun r => decide (usura_final_bajada ≤ interes_ea_100pbs r.tasa_interes))
  let saldo_exp := (sel.map TasaRow.saldo_actual_trasaccion).sum
  (saldo_exp, (saldo_exp * (1/100)) * (-1))

/-- `saldo_usura`, rise branch (lines 1447-1470): shift 450bps = 4.5. -/
def saldo_usura_subida (tasa_usura : ℚ) (df_mes : List TasaRow) : ℚ × ℚ :=
  let usura_final := tasa_usura + 9/2
  let sel := df_mes.filter (fun r => decide (tasa_usura < r.tasa_ea_original))
  let tasa_final : TasaRow → ℚ := fun r =>
    if r.tasa_ea_original ≤ usura_final then r.tasa_ea_original else usura_final
  let impacto := (sel.map (fun r =>
    r.saldo_actual_trasaccion * ((tasa_final r - interes_ea_saldo_usura r.tasa_interes) / 100))).sum
  ((sel.map TasaRow.saldo_actual_trasaccion).sum, impacto)

/-- `saldo_usura`, fall branch (lines 1477-1484): impact
`(saldo_exp * 0.045) * (-1)`. -/
def saldo_usura_bajada (tasa_usura : ℚ) (df_mes : List TasaRow) : ℚ × ℚ :=
  let usura_final_bajada := tasa_usura - 9/2
  let sel := df_mes.filter (fun r => decide (usura_final_bajada ≤ interes_ea_saldo_usura r.tasa_interes))
  let saldo_exp := (sel.map TasaRow.saldo_actual_trasaccion).sum
  (saldo_exp, (saldo_exp * (45/1000)) * (-1))

/-- `afectacion_historica_estimada` (lines 1039-1103): the single
(exposed, impact) pair for the historical usury shift
`variacion = usura_siguiente - usura_actualizacion`, before persistence
rounding. -/
def afectacion_historica_pair (usura_mes usura_sig : ℚ) (df_mes : List TasaRow) : ℚ × ℚ :=
  let variacion := usura_sig - usura_mes
  if variacion < 0 then
    let minimo := usura_mes - |variacion|
    let sel := df_mes.filter (fun r => decide (minimo ≤ interes_ea_historica r.tasa_interes))
    let saldo_exp := (sel.map TasaRow.saldo_actual_trasaccion).sum
    (saldo_exp, (saldo_exp * (|variacion| / 100)) * (-1))
  else if 0 < variacion then
    let usura_final := usura_mes + |variacion|
    let sel := df_mes.filter (fun r => decide (usura_mes < r.tasa_ea_original))
    let tasa_final : TasaRow → ℚ := fun r =>
      if r.tasa_ea_original ≤ usura_final then r.tasa_ea_original else usura_final
    let impacto := (sel.map (fun r =>
      r.saldo_actual_trasaccion * ((tasa_final r - interes_ea_historica r.tasa_interes) / 100))).sum
    ((sel.map TasaRow.saldo_actual_trasaccion).sum, impacto)
  else (0, 0)

/-! ## Balance bucketing (`saldo_to_mes`)

`ranges = [NINF,0,1,11,21,24,26,26.5,27,27.5,28,29,30,inf]` with
`pd.cut` default right-closed intervals: band `i` is
`(ranges[i], ranges[i+1]]`, 13 bands.  `bandOf x` counts the interior cut
points strictly below `x`, which is exactly the `pd.cut` band index. -/

def cortes : List ℚ := [0, 1, 11, 21, 24, 26, 53/2, 27, 55/2, 28, 29, 30]

def bandOf (x : ℚ) : ℕ := (cortes.filter (fun b => decide (b < x))).length

/-- Group a (rate, balance) list by exact rate value and sum balances per
group (`groupby(...).agg({'saldo_actual_trasaccion':'sum'})`, lines 782 and
789; the subsequent descending sort does not change any sum). -/
def rateGroups (rows : List (ℚ × ℚ)) : List (ℚ × ℚ) :=
  ((rows.map Prod.fst).dedup).map (fun k =>
    (k, ((rows.filter (fun r => decide (r.1 = k))).map Prod.snd).sum))

/-- Per-rate groups for the original rate (`saldo_sr_to`, line 782). -/
def saldo_sr_to (df : List TasaRow) : List (ℚ × ℚ) :=
  rateGroups (df.map (fun r => (r.tasa_ea_original, r.saldo_actual_trasaccion)))

/-- Per-rate groups for the current rate (`saldo_sr_ta`, line 789). -/
def saldo_sr_ta (df : List TasaRow) : List (ℚ × ℚ) :=
  rateGroups (df.map (fun r =>
    (interes_ea_saldo_to_mes r.tasa_interes, r.saldo_actual_trasaccion)))

/-- Banded balance for band `b`: the group keys are rounded to 2 decimals
(lines 785 and 792) before `pd.cut` assigns bands (lines 797 and 860-861);
the band totals are the per-band `groupby(...).sum()`. -/
def bandTotal (gps : List (ℚ × ℚ)) (b : ℕ) : ℚ :=
  ((gps.filter (fun g => decide (bandOf (round2 g.1) = b))).map Prod.snd).sum

/-! ## Rate reconciliation (`tasas_originales`)

A row of the staged month table `SieT..[mes_base]` (one transaction), and a
row of the reference master `Maestro_Saldos..Maestro_Facturacion`.  `llave`
is the unique per-month surrogate key created by `reset_index` in
`procesar`.  The reference rate `TASA_EA` is embedded as a plain rational:
the development assumes the master rate column carries no NULLs, which is
what makes the source's `missing`/`complete` split (tested on `TASA_EA`
resp. `FECHA`) an exact partition of the merged rows. -/

structure TxRow where
  llave : ℕ
  nro_producto : String
  fecha_transaccion : String
  tipo_transaccion : String
  cod_transaccion : String
  tasa_interes : ℚ
  valor_transaccion : ℚ
  nro_cargos_diferidos : ℚ
  saldo_actual_trasaccion : ℚ
  tipo_producto : String
  periodo : String
deriving DecidableEq

structure MasterRow where
  fecha : String
  negocio : String
  valor_transaccion : ℚ
  cuotas_diferidas : ℚ
  codigo_transaccion : String
  codigo_producto : String
  fecha_transaccion : String
  tasa_ea : ℚ
deriving DecidableEq

/-- A row of the monthly SQL join result (`df_1`, lines 402-425): only the
fields the later pandas code reads are kept (`llave`, `FECHA`, the CASE
result `TASA_EA`). -/
structure JoinedRow where
  llave : ℕ
  fecha : String
  tasa_ea : ℚ
deriving DecidableEq

/-- The composite ON-clause of the SQL join (lines 415-420). -/
def matchesKey (t : TxRow) (m : MasterRow) : Bool :=
  t.nro_producto == m.negocio &&
  t.valor_transaccion == m.valor_transaccion &&
  t.nro_cargos_diferidos == m.cuotas_diferidas &&
  m.codigo_transaccion == t.cod_transaccion &&
  m.codigo_producto == t.tipo_producto &&
  t.fecha_transaccion == m.fecha_transaccion

/-- One monthly query: INNER JOIN with `WHERE p2.FECHA = mes`, and the
`CASE CAST(nro_cargos_diferidos AS FLOAT) WHEN 1 THEN 0 ELSE p2.TASA_EA END`
rule (lines 406-409). -/
def monthJoin (txs : List TxRow) (masters : List MasterRow) (mes : String) : List JoinedRow :=
  txs.flatMap (fun t =>
    ((masters.filter (fun m => m.fecha == mes && matchesKey t m)).map
      (fun m => ⟨t.llave, mes, if t.nro_cargos_diferidos == 1 then 0 else m.tasa_ea⟩)))

/-- `df_complete = pd.concat(df_complete_1)` (line 438): the union of the
monthly queries over the backward scan `meses` of the lookback window. -/
def df_complete (txs : List TxRow) (masters : List MasterRow) (meses : List String) :
    List JoinedRow :=
  meses.flatMap (monthJoin txs masters)

/-- `drop_duplicates(subset=['llave'])` keeps the first row per key. -/
def dedupGo : List ℕ → List JoinedRow → List JoinedRow
  | _, [] => []
  | seen, r :: rest =>
    if r.llave ∈ seen then dedupGo seen rest
    else r :: dedupGo (r.llave :: seen) rest

/-- `df_mes_to_sinDuplicados` (line 488). -/
def df_sinDuplicados (txs : List TxRow) (masters : List MasterRow) (meses : List String) :
    List JoinedRow :=
  dedupGo [] (df_complete txs masters meses)

/-- `pd.merge(df_mes_ta, df_mes_to_sinDuplicados, how='left', on='llave')`
(line 490): every left row, paired with its unique reference match if any. -/
def cruce_mes_left (txs : List TxRow) (masters : List MasterRow) (meses : List String) :
    List (TxRow × Option JoinedRow) :=
  txs.map (fun t =>
    (t, (df_sinDuplicados txs masters meses).find? (fun j => j.llave == t.llave)))

/-- `missing = cruce_mes_left[cruce_mes_left['TASA_EA'].isna()]` (line 492). -/
def missing_rows (txs : List TxRow) (masters : List MasterRow) (meses : List String) :
    List (TxRow × Option JoinedRow) :=
  (cruce_mes_left txs masters meses).filter (fun p => !p.2.isSome)

/-- `complete = cruce_mes_left[~cruce_mes_left['FECHA'].isna()]` (line 493). -/
def complete_rows (txs : List TxRow) (masters : List MasterRow) (meses : List String) :
    List (TxRow × Option JoinedRow) :=
  (cruce_mes_left txs masters meses).filter (fun p => p.2.isSome)

/-- An output row of `tasas_originales`: the left-side (`_x`) columns of the
transaction plus the reconciled original rate column `TASA_EA`. -/
structure OutRow where
  tx : TxRow
  tasa_ea : Option ℚ
deriving DecidableEq

/-- `tasas_originales` (lines 382-511), from the application-level merge on:
fallback `TASA_EA` for missing rows from the EA conversion of
`tasa_interes` (line 494), `pd.concat([complete, missing])` (line 496), and
the final `TASA_EA.round(1)` (line 505).  `validate='1:1'` makes the merge
raise `MergeError` unless the key is unique on both sides; the right side
is deduplicated, so the embedding returns `none` exactly when the left
keys are not unique. -/
def tasas_originales (txs : List TxRow) (masters : List MasterRow) (meses : List String) :
    Option (List OutRow) :=
  if (txs.map TxRow.llave).Nodup then
    some ((((complete_rows txs masters meses).map
        (fun p => OutRow.mk p.1 (p.2.map JoinedRow.tasa_ea)))
      ++ ((missing_rows txs masters meses).map
        (fun p => OutRow.mk p.1 (some (interes_ea_tasas_originales p.1.tasa_interes))))).map
      (fun r => OutRow.mk r.tx (r.tasa_ea.map round1)))
  else none

/-! ## Balance-composition schema check (`balance_composition`) -/

/-- The column-by-column comparison list of line 148:
`[df_composicion_saldo.columns[i]==df.columns[i] for i in range(len(...))]`. -/
def schemaEqFlags (c1 c2 : List String) : List Bool :=
  (List.range c1.length).map (fun i => decide (c1.get? i = c2.get? i))

/-- Line 147: `assert not all(...)`.  The function returns `true` iff the
assert passes, i.e. iff the run continues past the check. -/
def assert_not_all_passes (c1 c2 : List String) : Bool :=
  !((schemaEqFlags c1 c2).all (fun b => b))

/-- The historical schema of `composicion_saldo_adg` as queried back
(`query_comp_balance`) and indexed by `periodo`, in order. -/
def hist_columns : List String :=
  ["saldo_total", "saldo_capital", "saldo_intereses", "saldo_mora", "saldo_otros"]

/-! ## Reference dates (`utils.ReferenceDate`)

Dates are (year, month, day) triples; `relativedelta(months=1)` clamps the
day to the target month's length, `relativedelta(days=k)` is exact day
arithmetic. -/

structure Ymd where
  y : ℤ
  m : ℕ
  d : ℕ
deriving DecidableEq

def isLeap (y : ℤ) : Bool :=
  (y % 4 == 0 && !(y % 100 == 0)) || (y % 400 == 0)

def daysInMonth (y : ℤ) (m : ℕ) : ℕ :=
  if m = 2 then (if isLeap y then 29 else 28)
  else if m = 4 ∨ m = 6 ∨ m = 9 ∨ m = 11 then 30
  else 31

def prevYM (y : ℤ) (m : ℕ) : ℤ × ℕ :=
  if m = 1 then (y - 1, 12) else (y, m - 1)

def nextYM (y : ℤ) (m : ℕ) : ℤ × ℕ :=
  if m = 12 then (y + 1, 1) else (y, m + 1)

def predDay (dt : Ymd) : Ymd :=
  if 2 ≤ dt.d then ⟨dt.y, dt.m, dt.d - 1⟩
  else ⟨(prevYM dt.y dt.m).1, (prevYM dt.y dt.m).2,
        daysInMonth (prevYM dt.y dt.m).1 (prevYM dt.y dt.m).2⟩

/-- `ref_date - relativedelta(days=n)`. -/
def subDays : ℕ → Ymd → Ymd
  | 0, dt => dt
  | n + 1, dt => subDays n (predDay dt)

/-- `ref_date + relativedelta(months=1)` (day clamped). -/
def addMonths1 (dt : Ymd) : Ymd :=
  ⟨(nextYM dt.y dt.m).1, (nextYM dt.y dt.m).2,
   min dt.d (daysInMonth (nextYM dt.y dt.m).1 (nextYM dt.y dt.m).2)⟩

/-- `ref_date - relativedelta(months=1)` (day clamped). -/
def subMonths1 (dt : Ymd) : Ymd :=
  ⟨(prevYM dt.y dt.m).1, (prevYM dt.y dt.m).2,
   min dt.d (daysInMonth (prevYM dt.y dt.m).1 (prevYM dt.y dt.m).2)⟩

/-- `utils.py` line 157: `ref_date + relativedelta(months=1) -
relativedelta(days=ref_date.day)`. -/
def last_date (dt : Ymd) : Ymd := subDays dt.d (addMonths1 dt)

/-- Line 164: `ref_date - relativedelta(days=ref_date.day - 1)`. -/
def first_date (dt : Ymd) : Ymd := subDays (dt.d - 1) dt

/-- Line 172: `ref_date - relativedelta(days=ref_date.day)`. -/
def prev_last_date (dt : Ymd) : Ymd := subDays dt.d dt

/-- Lines 180-181: `ref_date - relativedelta(days=ref_date.day - 1) -
relativedelta(months=1)`. -/
def prev_first_date (dt : Ymd) : Ymd := subMonths1 (subDays (dt.d - 1) dt)

/-- The `InvalidDate` exception of `custom_exceptions.py`. -/
inductive InvalidDate where
  | mk : InvalidDate
deriving DecidableEq

/-- `ReferenceDate.get_format_date` (lines 115-152), at the level of the
date returned (the `strftime` string formatting is not modelled). -/
def get_format_date (dt : Ymd) (int_date : String) : Except InvalidDate Ymd :=
  if int_date = "first_date" then Except.ok (first_date dt)
  else if int_date = "last_date" then Except.ok (last_date dt)
  else if int_date = "prev_first_date" then Except.ok (prev_first_date dt)
  else if int_date = "prev_last_date" then Except.ok (prev_last_date dt)
  else Except.error InvalidDate.mk

/-- A well-formed calendar date. -/
def ValidYmd (dt : Ymd) : Prop :=
  1 ≤ dt.m ∧ dt.m ≤ 12 ∧ 1 ≤ dt.d ∧ dt.d ≤ daysInMonth dt.y dt.m

/-! ## Concrete sample data

Small concrete rows used to exercise the embedded pipeline in closed
theorems. -/

/-- A transaction with deferred count 3 and nominal rate 0. -/
def tx_simple : TxRow := ⟨0, "p", "f", "1", "c", 0, 5, 3, 100, "tp", "2024-01"⟩

/-- A full-payment (`totalero`) transaction: deferred count exactly 1,
nominal period rate 2%. -/
def tx_totalero : TxRow := ⟨0, "p", "f", "1", "c", 2, 5, 1, 100, "tp", "2024-01"⟩

/-- A reference-master row whose composite key matches `tx_totalero` in
month `2024-01`. -/
def master_match : MasterRow := ⟨"2024-01", "p", 5, 1, "c", "tp", "f", 31⟩

/-- A sample sensitivity row: balance 1000, nominal rate 2% (current
effective-annual rate 26.82%), original rate 30%. -/
def fila_sens : TasaRow := ⟨1000, 2, 30⟩

/-! # Theorems -/

/-! ## Rounding lemmas -/

theorem roundHE_intCast {α : Type} [LinearOrderedField α] [FloorRing α] (n : ℤ) :
    roundHE (n : α) = n := by
  unfold roundHE
  rw [Int.floor_intCast]
  simp

theorem abs_roundHE_sub_le {α : Type} [LinearOrderedField α] [FloorRing α] (x : α) :
    |(roundHE x : α) - x| ≤ 1/2 := by
  have h1 : (⌊x⌋ : α) ≤ x := Int.floor_le x
  have h2 : x < ⌊x⌋ + 1 := Int.lt_floor_add_one x
  unfold roundHE
  split_ifs with ha hb hc <;>
    (rw [abs_le]; push_cast; constructor <;> linarith)

theorem roundHE_nonneg {α : Type} [LinearOrderedField α] [FloorRing α] {x : α}
    (h : 0 ≤ x) : 0 ≤ roundHE x := by
  have h0 : (0:ℤ) ≤ ⌊x⌋ := Int.floor_nonneg.mpr h
  unfold roundHE
  split_ifs <;> omega

theorem abs_round2_sub_le {α : Type} [LinearOrderedField α] [FloorRing α] (x : α) :
    |round2 x - x| ≤ 1/200 := by
  have h := abs_roundHE_sub_le (100 * x)
  have hrw : round2 x - x = ((roundHE (100 * x) : α) - 100 * x) / 100 := by
    unfold round2; ring
  rw [hrw, abs_div, abs_of_pos (by norm_num : (0:α) < 100)]
  rw [div_le_div_iff₀ (by norm_num) (by norm_num)]
  nlinarith [abs_nonneg ((roundHE (100 * x) : α) - 100 * x)]

theorem round2_nonneg {α : Type} [LinearOrderedField α] [FloorRing α] {x : α}
    (h : 0 ≤ x) : 0 ≤ round2 x := by
  have h0 : (0:ℤ) ≤ roundHE (100 * x) := roundHE_nonneg (by positivity)
  unfold round2
  have : (0:α) ≤ (roundHE (100 * x) : α) := by exact_mod_cast h0
  positivity

theorem round2_idem {α : Type} [LinearOrderedField α] [FloorRing α] (x : α) :
    round2 (round2 x) = round2 x := by
  unfold round2
  rw [mul_div_cancel₀ _ (by norm_num : (100:α) ≠ 0), roundHE_intCast]

/-! ## Concrete rounding values -/

theorem interes_ea_cero : interes_ea_tasas_originales 0 = 0 := by
  unfold interes_ea_tasas_originales round2
  rw [show ((((0:ℚ)/100) + 1) ^ (12:ℕ) - 1) * 100 = 0 by norm_num,
    show (100:ℚ) * 0 = ((0:ℤ) : ℚ) by norm_num, roundHE_intCast]
  norm_num

theorem interes_ea_dos : interes_ea_tasas_originales 2 = 1341/50 := by
  unfold interes_ea_tasas_originales round2
  rw [show ((((2:ℚ)/100) + 1) ^ (12:ℕ) - 1) * 100
      = 65488719375621415601/2441406250000000000 by norm_num]
  rw [show (100:ℚ) * (65488719375621415601/2441406250000000000)
      = 65488719375621415601/24414062500000000 by norm_num]
  have hfl : ⌊(65488719375621415601/24414062500000000 : ℚ)⌋ = 2682 := by
    rw [Int.floor_eq_iff]
    norm_num
  unfold roundHE
  rw [hfl]
  rw [if_pos (by norm_num)]
  norm_num

theorem round1_totalero : round1 (1341/50 : ℚ) = 134/5 := by
  unfold round1
  rw [show (10:ℚ) * (1341/50) = 1341/5 by norm_num]
  have hfl : ⌊(1341/5 : ℚ)⌋ = 268 := by
    rw [Int.floor_eq_iff]
    norm_num
  unfold roundHE
  rw [hfl]
  rw [if_pos (by norm_num)]
  norm_num

theorem ea_spec_m999 : to_effective_annual (-999/10) = -100 := by
  unfold to_effective_annual round2
  rw [show (((1 + (-999/10 : ℚ)/100) ^ (12:ℕ)) - 1) * 100
      = -(999999999999999999999999999999999999/10000000000000000000000000000000000) by norm_num]
  rw [show (100:ℚ) * (-(999999999999999999999999999999999999/10000000000000000000000000000000000))
      = -(999999999999999999999999999999999999/100000000000000000000000000000000) by norm_num]
  have hfl : ⌊(-(999999999999999999999999999999999999/100000000000000000000000000000000) : ℚ)⌋
      = -10000 := by
    rw [Int.floor_eq_iff]
    norm_num
  unfold roundHE
  rw [hfl]
  rw [if_pos (by norm_num)]
  norm_num

/-! ## C5: the effective-annual and monthly-value conversions -/

/-- C5: for every nominal periodic rate, each of the eight places in the
pipeline that derives a current effective-annual rate (and the fallback
original rate of the reconciliation) computes exactly the spec contract
`to_effective_annual(r) = round2((((1 + r/100)^12) - 1) * 100)`, and both
monthly-value conversion sites compute exactly
`to_monthly_value(r) = round2((((1 + r/100)^(30/360)) - 1) * 100)`.  All of
these are total functions with no error path. -/
theorem C5_rate_conversion_contract :
    (∀ r : ℚ, interes_ea_tasas_originales r = to_effective_annual r ∧
      interes_ea_segmentacion r = to_effective_annual r ∧
      interes_ea_facial r = to_effective_annual r ∧
      interes_ea_saldo_to_mes r = to_effective_annual r ∧
      interes_ea_100pbs r = to_effective_annual r ∧
      interes_ea_historica r = to_effective_annual r ∧
      interes_ea_estimacion r = to_effective_annual r ∧
      interes_ea_saldo_usura r = to_effective_annual r) ∧
    (∀ x : ℝ, mv_lambda_usura (x / 100) = to_monthly_value x ∧
      mv_lambda_original (x / 100) = to_monthly_value x) := by
  constructor
  · intro r
    have hbody : ((((r/100) + 1) ^ (12:ℕ)) - 1) * 100
        = (((1 + r/100) ^ (12:ℕ)) - 1) * 100 := by ring
    have hone : round2 (((((r/100) + 1) ^ (12:ℕ)) - 1) * 100) = to_effective_annual r := by
      unfold to_effective_annual
      exact congrArg round2 hbody
    refine ⟨hone, hone, ?_, hone, hone, hone, hone, hone⟩
    unfold interes_ea_facial
    rw [round2_idem]
    exact hone
  · intro x
    exact ⟨rfl, rfl⟩

/-! ## C4: the balance-composition schema check -/

/-- C4 (code bug): the source's schema check is
`assert not all([df1.columns[i]==df2.columns[i] ...])`, which *fails* the
assert (aborting the run) precisely when every column matches the
historical schema, and *passes* (continuing into the merge) when the
schemas differ — the inverse of the intent stated by the assert's own
message.  First conjunct: on identical schemas the assert does not pass;
second conjunct: on a mismatched schema it passes. -/
theorem C4_schema_check_inverted :
    assert_not_all_passes hist_columns hist_columns = false ∧
    assert_not_all_passes hist_columns
      ["saldo_mora", "saldo_capital", "saldo_intereses", "saldo_total", "saldo_otros"] = true := by
  decide

/-! ## C1: the usury sensitivity rule and its call sites -/

theorem interes_ea_100pbs_eq : interes_ea_100pbs = interes_ea_estimacion := rfl

theorem interes_ea_saldo_usura_eq : interes_ea_saldo_usura = interes_ea_estimacion := rfl

theorem interes_ea_historica_eq : interes_ea_historica = interes_ea_estimacion := rfl

/-- C1: the generic per-shift sensitivity rule (`estimacion_sensibilidad`
loop body).  For a positive shift it returns the exposed balance of the
rows whose original rate strictly exceeds the threshold together with the
capped-rate impact `Σ saldo * ((min(original, T+s) - current)/100)`; for a
negative shift, the exposed balance of the rows whose current rate is at
least `T - |s|` with uniform impact `-(exposed * |s|/100)`; for a zero
shift, `(0, 0)`.  The ±100bps, ±450bps, historical-delta and sweep call
sites all compute this same rule at their respective shifts. -/
theorem C1_usury_sensitivity (tasa_usura variacion : ℚ) (df : List TasaRow) :
    (0 < variacion → sens_pair tasa_usura variacion df =
      (((df.filter (fun r => decide (tasa_usura < r.tasa_ea_original))).map
          TasaRow.saldo_actual_trasaccion).sum,
       ((df.filter (fun r => decide (tasa_usura < r.tasa_ea_original))).map (fun r =>
          r.saldo_actual_trasaccion *
            ((min r.tasa_ea_original (tasa_usura + variacion)
              - interes_ea_estimacion r.tasa_interes) / 100))).sum)) ∧
    (variacion < 0 → sens_pair tasa_usura variacion df =
      (((df.filter (fun r =>
            decide (tasa_usura - |variacion| ≤ interes_ea_estimacion r.tasa_interes))).map
          TasaRow.saldo_actual_trasaccion).sum,
       -(((df.filter (fun r =>
            decide (tasa_usura - |variacion| ≤ interes_ea_estimacion r.tasa_interes))).map
          TasaRow.saldo_actual_trasaccion).sum * (|variacion| / 100)))) ∧
    (variacion = 0 → sens_pair tasa_usura variacion df = (0, 0)) ∧
    afectacion_100pbs_subida tasa_usura df = sens_pair tasa_usura 1 df ∧
    afectacion_100pbs_bajada tasa_usura df = sens_pair tasa_usura (-1) df ∧
    saldo_usura_subida tasa_usura df = sens_pair tasa_usura (9/2) df ∧
    saldo_usura_bajada tasa_usura df = sens_pair tasa_usura (-(9/2)) df ∧
    afectacion_historica_pair tasa_usura (tasa_usura + variacion) df =
      sens_pair tasa_usura variacion df ∧
    estimacion_sensibilidad df tasa_usura =
      variaciones_usura.map (fun v =>
        (v, (sens_pair tasa_usura v df).1, (sens_pair tasa_usura v df).2)) := by
  refine ⟨?_, ?_, ?_, ?_, ?_, ?_, ?_, ?_, rfl⟩
  · intro h
    have hp : sens_pair tasa_usura variacion df = sens_subida tasa_usura variacion df := by
      unfold sens_pair
      rw [if_neg (by linarith), if_pos h]
    rw [hp]
    unfold sens_subida
    rw [abs_of_pos h]
    simp only [min_def]
  · intro h
    have hp : sens_pair tasa_usura variacion df = sens_bajada tasa_usura variacion df := by
      unfold sens_pair
      rw [if_pos h]
    rw [hp]
    unfold sens_bajada
    exact Prod.ext rfl (by ring)
  · intro h
    subst h
    unfold sens_pair
    norm_num
  · have hp : sens_pair tasa_usura 1 df = sens_subida tasa_usura 1 df := by
      unfold sens_pair
      norm_num
    rw [hp]
    unfold afectacion_100pbs_subida sens_subida
    rw [show |(1 : ℚ)| = (1 : ℚ) from abs_one]
    simp only [interes_ea_100pbs_eq]
  · have hp : sens_pair tasa_usura (-1) df = sens_bajada tasa_usura (-1) df := by
      unfold sens_pair
      norm_num
    rw [hp]
    unfold afectacion_100pbs_bajada sens_bajada
    rw [show |(-1 : ℚ)| = (1 : ℚ) from by norm_num]
    simp only [interes_ea_100pbs_eq]
  · have hp : sens_pair tasa_usura (9/2) df = sens_subida tasa_usura (9/2) df := by
      unfold sens_pair
      norm_num
    rw [hp]
    unfold saldo_usura_subida sens_subida
    rw [show |(9/2 : ℚ)| = (9/2 : ℚ) from by norm_num]
    simp only [interes_ea_saldo_usura_eq]
  · have hp : sens_pair tasa_usura (-(9/2)) df = sens_bajada tasa_usura (-(9/2)) df := by
      unfold sens_pair
      norm_num
    rw [hp]
    unfold saldo_usura_bajada sens_bajada
    rw [show |(-(9/2) : ℚ)| = (9/2 : ℚ) from by norm_num]
    simp only [interes_ea_saldo_usura_eq]
    exact Prod.ext rfl (by ring)
  · have hv : tasa_usura + variacion - tasa_usura = variacion := by ring
    unfold afectacion_historica_pair sens_pair sens_bajada sens_subida
    simp only [hv, interes_ea_historica_eq]

/-! ## C7: bucketing conserves total balance -/

theorem bandOf_lt (x : ℚ) : bandOf x < 13 := by
  have h : bandOf x ≤ cortes.length := List.length_filter_le _ _
  have hlen : cortes.length = 12 := rfl
  omega

theorem sum_bandTotal (gps : List (ℚ × ℚ)) :
    Finset.sum (Finset.range 13) (bandTotal gps) = (gps.map Prod.snd).sum := by
  induction gps with
  | nil => simp [bandTotal]
  | cons g t ih =>
    have hstep : ∀ b, bandTotal (g :: t) b =
        (if bandOf (round2 g.1) = b then g.2 else 0) + bandTotal t b := by
      intro b
      unfold bandTotal
      rw [List.filter_cons]
      by_cases hb : bandOf (round2 g.1) = b
      · simp [hb]
      · simp [hb]
    calc Finset.sum (Finset.range 13) (bandTotal (g :: t))
        = Finset.sum (Finset.range 13) (fun b =>
            (if bandOf (round2 g.1) = b then g.2 else 0) + bandTotal t b) :=
          Finset.sum_congr rfl (fun b _ => hstep b)
      _ = Finset.sum (Finset.range 13)
            (fun b => if bandOf (round2 g.1) = b then g.2 else 0)
          + Finset.sum (Finset.range 13) (bandTotal t) := Finset.sum_add_distrib
      _ = g.2 + (t.map Prod.snd).sum := by
          rw [ih, Finset.sum_ite_eq]
          simp [Finset.mem_range, bandOf_lt]
      _ = ((g :: t).map Prod.snd).sum := by simp

theorem sum_map_ite_of_not_mem (c v : ℚ) :
    ∀ ks : List ℚ, c ∉ ks → (ks.map (fun k => if c = k then v else 0)).sum = 0 := by
  intro ks
  induction ks with
  | nil => simp
  | cons a t ih =>
    intro h
    have h1 : c ≠ a := fun hc => h (hc ▸ List.mem_cons_self a t)
    have h2 : c ∉ t := fun hc => h (List.mem_cons_of_mem a hc)
    simp [h1, ih h2]

theorem sum_map_ite_of_mem (c v : ℚ) :
    ∀ ks : List ℚ, ks.Nodup → c ∈ ks → (ks.map (fun k => if c = k then v else 0)).sum = v := by
  intro ks
  induction ks with
  | nil => intro _ h; exact absurd h (List.not_mem_nil c)
  | cons a t ih =>
    intro hnd hmem
    rcases List.mem_cons.mp hmem with h | h
    · subst h
      have hnotin : c ∉ t := (List.nodup_cons.mp hnd).1
      simp [sum_map_ite_of_not_mem c v t hnotin]
    · have hne : c ≠ a := by
        intro hc
        subst hc
        exact (List.nodup_cons.mp hnd).1 h
      simp only [List.map_cons, List.sum_cons, if_neg hne]
      rw [ih (List.nodup_cons.mp hnd).2 h]
      ring

theorem sum_map_add_fun (f g : ℚ → ℚ) :
    ∀ l : List ℚ, (l.map (fun k => f k + g k)).sum = (l.map f).sum + (l.map g).sum := by
  intro l
  induction l with
  | nil => simp
  | cons a t ih => simp only [List.map_cons, List.sum_cons, ih]; ring

theorem fiber_sums (rows : List (ℚ × ℚ)) :
    ∀ ks : List ℚ, ks.Nodup → (∀ r ∈ rows, r.1 ∈ ks) →
      (ks.map (fun k => ((rows.filter (fun r => decide (r.1 = k))).map Prod.snd).sum)).sum
        = (rows.map Prod.snd).sum := by
  induction rows with
  | nil =>
    intro ks _ _
    have : ∀ k ∈ ks, ((List.nil.filter (fun r : ℚ × ℚ => decide (r.1 = k))).map Prod.snd).sum = 0 := by
      intro k _; simp
    rw [List.map_congr_left this]
    simp
  | cons r t ih =>
    intro ks hnd hmem
    have hterm : ∀ k ∈ ks, (((r :: t).filter (fun x => decide (x.1 = k))).map Prod.snd).sum
        = (if r.1 = k then r.2 else 0)
          + ((t.filter (fun x => decide (x.1 = k))).map Prod.snd).sum := by
      intro k _
      rw [List.filter_cons]
      by_cases h : r.1 = k
      · simp [h]
      · simp [h]
    rw [List.map_congr_left hterm, sum_map_add_fun, sum_map_ite_of_mem r.1 r.2 ks hnd
      (hmem r (List.mem_cons_self r t)),
      ih ks hnd (fun x hx => hmem x (List.mem_cons_of_mem r hx))]
    simp

theorem rateGroups_sum (rows : List (ℚ × ℚ)) :
    ((rateGroups rows).map Prod.snd).sum = (rows.map Prod.snd).sum := by
  unfold rateGroups
  rw [List.map_map]
  have hmem : ∀ r ∈ rows, r.1 ∈ (rows.map Prod.fst).dedup := by
    intro r hr
    exact List.mem_dedup.mpr (List.mem_map_of_mem Prod.fst hr)
  exact fiber_sums rows _ (List.nodup_dedup _) hmem

/-- C7: for each rate-type independently, the sum of the banded balances
over the 13 fixed `pd.cut` bands (right-closed, so a rate exactly on a
boundary falls in the lower band) equals the sum over all raw per-rate
groups — and both equal the total balance of the dataset. -/
theorem C7_bucketing_conservation (df : List TasaRow) :
    Finset.sum (Finset.range 13) (bandTotal (saldo_sr_to df))
      = ((saldo_sr_to df).map Prod.snd).sum ∧
    Finset.sum (Finset.range 13) (bandTotal (saldo_sr_ta df))
      = ((saldo_sr_ta df).map Prod.snd).sum ∧
    ((saldo_sr_to df).map Prod.snd).sum = (df.map TasaRow.saldo_actual_trasaccion).sum ∧
    ((saldo_sr_ta df).map Prod.snd).sum = (df.map TasaRow.saldo_actual_trasaccion).sum := by
  refine ⟨sum_bandTotal _, sum_bandTotal _, ?_, ?_⟩
  · rw [saldo_sr_to, rateGroups_sum, List.map_map]
    rfl
  · rw [saldo_sr_ta, rateGroups_sum, List.map_map]
    rfl

/-! ## Reconciliation lemmas -/

theorem round1_zero : round1 (0 : ℚ) = 0 := by
  unfold round1
  rw [show (10 : ℚ) * 0 = ((0 : ℤ) : ℚ) by norm_num, roundHE_intCast]
  norm_num

theorem filter_not_filter_perm {α : Type} (p : α → Bool) (l : List α) :
    (l.filter p ++ l.filter (fun a => !p a)).Perm l := by
  induction l with
  | nil => simp
  | cons a t ih =>
    rw [List.filter_cons, List.filter_cons]
    cases hpa : p a
    · simp only [hpa, Bool.not_false, if_neg, cond_false]
      exact List.Perm.trans List.perm_middle (List.Perm.cons a ih)
    · simp only [hpa, Bool.not_true, cond_true, cond_false]
      exact List.Perm.cons a ih

theorem dedupGo_subset : ∀ (seen : List ℕ) (l : List JoinedRow), ∀ j ∈ dedupGo seen l, j ∈ l := by
  intro seen l
  induction l generalizing seen with
  | nil => intro j hj; simp [dedupGo] at hj
  | cons r t ih =>
    intro j hj
    unfold dedupGo at hj
    by_cases h : r.llave ∈ seen
    · rw [if_pos h] at hj
      exact List.mem_cons_of_mem r (ih seen j hj)
    · rw [if_neg h] at hj
      rcases List.mem_cons.mp hj with h1 | h1
      · exact h1 ▸ List.mem_cons_self r t
      · exact List.mem_cons_of_mem r (ih _ j h1)

theorem dedupGo_keys : ∀ (l : List JoinedRow) (seen : List ℕ) (k : ℕ), k ∉ seen →
    ((∃ j ∈ dedupGo seen l, j.llave = k) ↔ ∃ j ∈ l, j.llave = k) := by
  intro l
  induction l with
  | nil => intro seen k _; simp [dedupGo]
  | cons r t ih =>
    intro seen k hk
    unfold dedupGo
    by_cases h : r.llave ∈ seen
    · rw [if_pos h, ih seen k hk]
      constructor
      · rintro ⟨j, hj, hjk⟩
        exact ⟨j, List.mem_cons_of_mem r hj, hjk⟩
      · rintro ⟨j, hj, hjk⟩
        rcases List.mem_cons.mp hj with h1 | h1
        · refine absurd ?_ hk
          rw [← hjk, h1]
          exact h
        · exact ⟨j, h1, hjk⟩
    · rw [if_neg h]
      constructor
      · rintro ⟨j, hj, hjk⟩
        rcases List.mem_cons.mp hj with h1 | h1
        · exact ⟨r, List.mem_cons_self r t, h1 ▸ hjk⟩
        · exact ⟨j, List.mem_cons_of_mem r (dedupGo_subset _ _ j h1), hjk⟩
      · rintro ⟨j, hj, hjk⟩
        rcases List.mem_cons.mp hj with h1 | h1
        · exact ⟨r, List.mem_cons_self r (dedupGo (r.llave :: seen) t), by rw [← h1]; exact hjk⟩
        · by_cases hrk : r.llave = k
          · exact ⟨r, List.mem_cons_self r (dedupGo (r.llave :: seen) t), hrk⟩
          · have hk2 : k ∉ r.llave :: seen := by
              intro hmem
              rcases List.mem_cons.mp hmem with h2 | h2
              · exact hrk h2.symm
              · exact hk h2
            obtain ⟨j2, hj2, hjk2⟩ := (ih (r.llave :: seen) k hk2).mpr ⟨j, h1, hjk⟩
            exact ⟨j2, List.mem_cons_of_mem r hj2, hjk2⟩

/-- The body returned by `tasas_originales` when the merge validates. -/
theorem tasas_originales_some {txs : List TxRow} {masters : List MasterRow} {meses : List String}
    (h : (txs.map TxRow.llave).Nodup) :
    tasas_originales txs masters meses =
      some ((((complete_rows txs masters meses).map
          (fun p => OutRow.mk p.1 (p.2.map JoinedRow.tasa_ea)))
        ++ ((missing_rows txs masters meses).map
          (fun p => OutRow.mk p.1 (some (interes_ea_tasas_originales p.1.tasa_interes))))).map
        (fun r => OutRow.mk r.tx (r.tasa_ea.map round1))) := by
  unfold tasas_originales
  rw [if_pos h]

/-- Every reconciled row's `TASA_EA` is `round1` of some rational, and in
particular populated. -/
theorem out_tasa_ea_round1 (txs : List TxRow) (masters : List MasterRow) (meses : List String)
    (out : List OutRow) (h : tasas_originales txs masters meses = some out) :
    ∀ r ∈ out, ∃ v : ℚ, r.tasa_ea = some (round1 v) := by
  have hnd : (txs.map TxRow.llave).Nodup := by
    by_contra hc
    rw [tasas_originales, if_neg hc] at h
    exact Option.noConfusion h
  rw [tasas_originales_some hnd] at h
  rw [Option.some_inj] at h
  subst h
  intro r hr
  obtain ⟨r1, hr1, hr1e⟩ := List.mem_map.mp hr
  rcases List.mem_append.mp hr1 with hc | hm
  · obtain ⟨p, hp, hpe⟩ := List.mem_map.mp hc
    have hsome : p.2.isSome := (List.mem_filter.mp hp).2
    obtain ⟨j, hj⟩ := Option.isSome_iff_exists.mp hsome
    refine ⟨j.tasa_ea, ?_⟩
    rw [← hr1e, ← hpe]
    simp [hj]
  · obtain ⟨p, _, hpe⟩ := List.mem_map.mp hm
    refine ⟨interes_ea_tasas_originales p.1.tasa_interes, ?_⟩
    rw [← hr1e, ← hpe]
    simp

/-! ## C3: reconciliation drops no rows -/

/-- C3: whenever `tasas_originales` returns a dataset, its rows are exactly
the input transactions (as a permutation, hence equal row count), and every
output row has the original-rate field populated (the current-rate field
`tasa_interes` is carried unchanged inside `OutRow.tx`). -/
theorem C3_reconciliation_preserves_rows (txs : List TxRow) (masters : List MasterRow)
    (meses : List String) (out : List OutRow)
    (h : tasas_originales txs masters meses = some out) :
    (out.map OutRow.tx).Perm txs ∧ out.length = txs.length ∧
      ∀ r ∈ out, r.tasa_ea.isSome := by
  have hnd : (txs.map TxRow.llave).Nodup := by
    by_contra hc
    rw [tasas_originales, if_neg hc] at h
    exact Option.noConfusion h
  have hperm : (out.map OutRow.tx).Perm txs := by
    rw [tasas_originales_some hnd] at h
    rw [Option.some_inj] at h
    subst h
    have h1 : ((((complete_rows txs masters meses).map
          (fun p => OutRow.mk p.1 (p.2.map JoinedRow.tasa_ea)))
        ++ ((missing_rows txs masters meses).map
          (fun p => OutRow.mk p.1 (some (interes_ea_tasas_originales p.1.tasa_interes))))).map
        (fun r => OutRow.mk r.tx (r.tasa_ea.map round1))).map OutRow.tx
        = (complete_rows txs masters meses
            ++ missing_rows txs masters meses).map (fun p => p.1) := by
      simp only [List.map_map, List.map_append]
      rfl
    rw [h1]
    have h2 := (filter_not_filter_perm (fun p : TxRow × Option JoinedRow => p.2.isSome)
      (cruce_mes_left txs masters meses)).map (fun p => p.1)
    have h3 : (cruce_mes_left txs masters meses).map
        (fun p : TxRow × Option JoinedRow => p.1) = txs := by
      unfold cruce_mes_left
      rw [List.map_map]
      exact List.map_id txs
    rw [h3] at h2
    exact h2
  refine ⟨hperm, ?_, ?_⟩
  · have := hperm.length_eq
    rw [List.length_map] at this
    exact this
  · intro r hr
    obtain ⟨v, hv⟩ := out_tasa_ea_round1 txs masters meses out h r hr
    rw [hv]
    rfl

/-- The behaviour of the merge when no reference row exists for the whole
window: every transaction gets the fallback rate (shared helper). -/
theorem empty_ref_all_fallback (txs : List TxRow) (masters : List MasterRow)
    (meses : List String) (hnd : (txs.map TxRow.llave).Nodup)
    (hempty : df_complete txs masters meses = []) :
    tasas_originales txs masters meses =
      some (txs.map (fun t =>
        OutRow.mk t (some (round1 (interes_ea_tasas_originales t.tasa_interes))))) := by
  rw [tasas_originales_some hnd]
  have hd : df_sinDuplicados txs masters meses = [] := by
    unfold df_sinDuplicados
    rw [hempty]
    rfl
  have hcruce : cruce_mes_left txs masters meses
      = txs.map (fun t => (t, (none : Option JoinedRow))) := by
    unfold cruce_mes_left
    rw [hd]
    rfl
  have hC : complete_rows txs masters meses = [] := by
    unfold complete_rows
    rw [hcruce, List.filter_map]
    simp [Function.comp_def]
  have hM : missing_rows txs masters meses
      = txs.map (fun t => (t, (none : Option JoinedRow))) := by
    unfold missing_rows
    rw [hcruce, List.filter_map]
    simp [Function.comp_def]
  rw [hC, hM]
  simp only [List.map_nil, List.nil_append, List.map_map]
  rfl

/-- Evaluation of the reconciliation on the zero-rate sample against an
empty reference (shared helper). -/
theorem tasas_simple_eval :
    tasas_originales [tx_simple] [] ["2024-01"]
      = some [OutRow.mk tx_simple (some 0)] := by
  rw [empty_ref_all_fallback [tx_simple] [] ["2024-01"] (by simp) rfl]
  simp only [List.map_cons, List.map_nil]
  rw [show tx_simple.tasa_interes = 0 from rfl, interes_ea_cero, round1_zero]

/-- Evaluation of the reconciliation on the deferred-count-1 sample against
an empty reference (shared helper). -/
theorem tasas_totalero_eval :
    tasas_originales [tx_totalero] [] ["2024-01"]
      = some [OutRow.mk tx_totalero (some (134/5))] := by
  rw [empty_ref_all_fallback [tx_totalero] [] ["2024-01"] (by simp) rfl]
  simp only [List.map_cons, List.map_nil]
  rw [show tx_totalero.tasa_interes = 2 from rfl, interes_ea_dos, round1_totalero]

/-! ## C2: the deferred-count-equals-1 special case -/

/-- C2 counterexample: a deferred-count-1 transaction with nominal rate 2%
and no reference match receives the fallback derived rate 26.8, not 0 —
the forced-zero rule lives only in the SQL CASE of the matched path. -/
theorem C2_deferred_one_counterexample :
    tx_totalero.nro_cargos_diferidos = 1 ∧
    tasas_originales [tx_totalero] [] ["2024-01"]
      = some [OutRow.mk tx_totalero (some (134/5))] ∧ (134/5 : ℚ) ≠ 0 := by
  refine ⟨rfl, tasas_totalero_eval, by norm_num⟩

/-- C2 (amended): a deferred-count-1 transaction gets original rate 0 when
some reference row matches it (via the SQL CASE rule); when no reference
row matches, it gets the fallback rate derived from its own nominal rate,
like any other unmatched row. -/
theorem C2_deferred_one_amended (txs : List TxRow) (masters : List MasterRow)
    (meses : List String) (out : List OutRow)
    (h : tasas_originales txs masters meses = some out) :
    ∀ r ∈ out, r.tx.nro_cargos_diferidos = 1 →
      ((∃ j ∈ df_complete txs masters meses, j.llave = r.tx.llave) → r.tasa_ea = some 0) ∧
      ((¬ ∃ j ∈ df_complete txs masters meses, j.llave = r.tx.llave) →
        r.tasa_ea = some (round1 (interes_ea_tasas_originales r.tx.tasa_interes))) := by
  have hnd : (txs.map TxRow.llave).Nodup := by
    by_contra hc
    rw [tasas_originales, if_neg hc] at h
    exact Option.noConfusion h
  rw [tasas_originales_some hnd, Option.some_inj] at h
  subst h
  intro r hr hcargos
  obtain ⟨r1, hr1, hr1e⟩ := List.mem_map.mp hr
  rcases List.mem_append.mp hr1 with hcm | hmm
  · -- r came from the matched (`complete`) part
    obtain ⟨p, hp, hpe⟩ := List.mem_map.mp hcm
    have hmemf := List.mem_filter.mp hp
    obtain ⟨t, htmem, htp⟩ := List.mem_map.mp hmemf.1
    have hp1 : p.1 = t := by rw [← htp]
    have hp2 : p.2 = (df_sinDuplicados txs masters meses).find? (fun j => j.llave == t.llave) := by
      rw [← htp]
    have hrtx : r.tx = p.1 := by rw [← hr1e, ← hpe]
    obtain ⟨j, hj⟩ := Option.isSome_iff_exists.mp hmemf.2
    have hfind : (df_sinDuplicados txs masters meses).find? (fun j => j.llave == t.llave)
        = some j := by rw [← hp2]; exact hj
    have hjmem : j ∈ df_sinDuplicados txs masters meses := List.mem_of_find?_eq_some hfind
    have hjl : j.llave = t.llave := by simpa using List.find?_some hfind
    have hjdf : j ∈ df_complete txs masters meses := dedupGo_subset [] _ j hjmem
    obtain ⟨mes, hmes, hjmonth⟩ := List.mem_flatMap.mp hjdf
    obtain ⟨t2, ht2, hjt2⟩ := List.mem_flatMap.mp hjmonth
    obtain ⟨m, hmmem, hje⟩ := List.mem_map.mp hjt2
    have hjl2 : j.llave = t2.llave := by rw [← hje]
    have hllave : t2.llave = t.llave := by rw [← hjl2]; exact hjl
    have ht2t : t2 = t := List.inj_on_of_nodup_map hnd ht2 htmem hllave
    have hcargot : t.nro_cargos_diferidos = 1 := by
      rw [← hp1, ← hrtx]
      exact hcargos
    have hite : j.tasa_ea = 0 := by
      rw [← hje]
      simp [ht2t, hcargot]
    constructor
    · intro _
      rw [← hr1e, ← hpe]
      simp [hj, hite, round1_zero]
    · intro hno
      refine absurd ⟨j, hjdf, ?_⟩ hno
      rw [hjl, hrtx, hp1]
  · -- r came from the unmatched (`missing`) part
    obtain ⟨p, hp, hpe⟩ := List.mem_map.mp hmm
    have hmemf := List.mem_filter.mp hp
    obtain ⟨t, htmem, htp⟩ := List.mem_map.mp hmemf.1
    have hp1 : p.1 = t := by rw [← htp]
    have hp2 : p.2 = (df_sinDuplicados txs masters meses).find? (fun j => j.llave == t.llave) := by
      rw [← htp]
    have hrtx : r.tx = p.1 := by rw [← hr1e, ← hpe]
    have hnone : p.2 = none := Option.not_isSome_iff_eq_none.mp (by simpa using hmemf.2)
    constructor
    · intro hex
      obtain ⟨j, hjdf, hjl⟩ := hex
      have hjlt : j.llave = t.llave := by rw [hjl, hrtx, hp1]
      obtain ⟨j2, hj2m, hj2l⟩ :=
        (dedupGo_keys (df_complete txs masters meses) [] t.llave (List.not_mem_nil _)).mpr
          ⟨j, hjdf, hjlt⟩
      have hfind : ((df_sinDuplicados txs masters meses).find?
          (fun x => x.llave == t.llave)).isSome := by
        rw [List.find?_isSome]
        exact ⟨j2, hj2m, by simp [hj2l]⟩
      have hcontra : ((df_sinDuplicados txs masters meses).find?
          (fun x => x.llave == t.llave)) = none := by
        rw [← hp2]
        exact hnone
      rw [hcontra] at hfind
      exact absurd hfind (by simp)
    · intro _
      rw [← hr1e, ← hpe]
      simp

/-! ## C8: empty reference window -/

/-- C8 counterexample: with a non-empty transaction set and a completely
empty reference master, `tasas_originales` completes normally and returns
the all-fallback dataset; no failure of any kind is raised. -/
theorem C8_empty_reference_counterexample :
    tasas_originales [tx_simple] [] ["2024-01"] = some [OutRow.mk tx_simple (some 0)] ∧
    tasas_originales [tx_simple] [] ["2024-01"] ≠ none := by
  refine ⟨tasas_simple_eval, ?_⟩
  rw [tasas_simple_eval]
  simp

/-- C8 (amended): when the reference source yields no rows over the whole
lookback window, the reconciliation silently completes and returns one row
per input transaction, each carrying the fallback derived original rate. -/
theorem C8_empty_reference_amended (txs : List TxRow) (masters : List MasterRow)
    (meses : List String) (hnd : (txs.map TxRow.llave).Nodup)
    (hempty : df_complete txs masters meses = []) :
    tasas_originales txs masters meses =
      some (txs.map (fun t =>
        OutRow.mk t (some (round1 (interes_ea_tasas_originales t.tasa_interes))))) :=
  empty_ref_all_fallback txs masters meses hnd hempty

/-! ## C10: one-decimal rounding of the reconciled original rate -/

/-- C10: every row of the reconciliation output — matched or fallback —
carries an original rate that is `round1` of the underlying value, i.e. an
integer number of tenths, even though the fallback value itself is derived
with 2-decimal rounding. -/
theorem C10_original_rate_one_decimal (txs : List TxRow) (masters : List MasterRow)
    (meses : List String) (out : List OutRow)
    (h : tasas_originales txs masters meses = some out) :
    ∀ r ∈ out, ∃ k : ℤ, r.tasa_ea = some ((k : ℚ)/10) := by
  intro r hr
  obtain ⟨v, hv⟩ := out_tasa_ea_round1 txs masters meses out h r hr
  exact ⟨roundHE (10 * v), by rw [hv]; rfl⟩

/-! ## C9: the reference-date helper -/

theorem daysInMonth_pos (y : ℤ) (m : ℕ) : 1 ≤ daysInMonth y m := by
  unfold daysInMonth
  split_ifs <;> omega

theorem subDays_in_month (y : ℤ) (m : ℕ) : ∀ (k d : ℕ), k < d →
    subDays k ⟨y, m, d⟩ = ⟨y, m, d - k⟩ := by
  intro k
  induction k with
  | zero => intro d _; simp [subDays]
  | succ n ih =>
    intro d hd
    have h2 : 2 ≤ d := by omega
    have hpd : predDay ⟨y, m, d⟩ = ⟨y, m, d - 1⟩ := by
      unfold predDay
      rw [if_pos h2]
    show subDays n (predDay ⟨y, m, d⟩) = _
    rw [hpd, ih (d - 1) (by omega)]
    congr 1
    omega

theorem subDays_to_one (y : ℤ) (m : ℕ) (d : ℕ) (h : 1 ≤ d) :
    subDays (d - 1) ⟨y, m, d⟩ = ⟨y, m, 1⟩ := by
  by_cases hd : d = 1
  · subst hd
    simp [subDays]
  · rw [subDays_in_month y m (d - 1) d (by omega)]
    congr 1
    omega

theorem subDays_succ_comm : ∀ (n : ℕ) (dt : Ymd), subDays (n + 1) dt = predDay (subDays n dt) := by
  intro n
  induction n with
  | zero => intro dt; rfl
  | succ k ih =>
    intro dt
    calc subDays (k + 1 + 1) dt = subDays (k + 1) (predDay dt) := rfl
      _ = predDay (subDays k (predDay dt)) := ih (predDay dt)
      _ = predDay (subDays (k + 1) dt) := rfl

theorem first_date_eq (dt : Ymd) (h : ValidYmd dt) : first_date dt = ⟨dt.y, dt.m, 1⟩ := by
  obtain ⟨h1, h2, h3, h4⟩ := h
  rcases dt with ⟨y, m, d⟩
  unfold first_date
  exact subDays_to_one y m d h3

theorem prev_last_date_eq (dt : Ymd) (h : ValidYmd dt) :
    prev_last_date dt = ⟨(prevYM dt.y dt.m).1, (prevYM dt.y dt.m).2,
      daysInMonth (prevYM dt.y dt.m).1 (prevYM dt.y dt.m).2⟩ := by
  obtain ⟨h1, h2, h3, h4⟩ := h
  rcases dt with ⟨y, m, d⟩
  have hd1 : 1 ≤ d := h3
  unfold prev_last_date
  have hstep : subDays ((d - 1) + 1) ⟨y, m, d⟩ = predDay (subDays (d - 1) ⟨y, m, d⟩) :=
    subDays_succ_comm (d - 1) _
  have hcnt : (d - 1) + 1 = d := by omega
  rw [hcnt] at hstep
  rw [hstep, subDays_to_one y m d h3]
  unfold predDay
  rw [if_neg (by norm_num)]

theorem prev_first_date_eq (dt : Ymd) (h : ValidYmd dt) :
    prev_first_date dt = ⟨(prevYM dt.y dt.m).1, (prevYM dt.y dt.m).2, 1⟩ := by
  obtain ⟨h1, h2, h3, h4⟩ := h
  rcases dt with ⟨y, m, d⟩
  unfold prev_first_date
  rw [subDays_to_one y m d h3]
  unfold subMonths1
  congr 1
  exact min_eq_left (daysInMonth_pos _ _)

theorem prevYM_nextYM (y : ℤ) (m : ℕ) (h1 : 1 ≤ m) (h2 : m ≤ 12) :
    prevYM (nextYM y m).1 (nextYM y m).2 = (y, m) := by
  unfold prevYM nextYM
  by_cases hm : m = 12
  · subst hm
    norm_num
  · rw [if_neg hm]
    have hne : m + 1 ≠ 1 := by omega
    simp [hne]

theorem last_date_eq (dt : Ymd) (h : ValidYmd dt)
    (hclamp : dt.d ≤ daysInMonth (nextYM dt.y dt.m).1 (nextYM dt.y dt.m).2) :
    last_date dt = ⟨dt.y, dt.m, daysInMonth dt.y dt.m⟩ := by
  obtain ⟨h1, h2, h3, h4⟩ := h
  rcases dt with ⟨y, m, d⟩
  have hd1 : 1 ≤ d := h3
  have hm1 : 1 ≤ m := h1
  have hm2 : m ≤ 12 := h2
  have hcl : d ≤ daysInMonth (nextYM y m).1 (nextYM y m).2 := hclamp
  unfold last_date addMonths1
  rw [min_eq_left hcl]
  have hstep : subDays ((d - 1) + 1) ⟨(nextYM y m).1, (nextYM y m).2, d⟩
      = predDay (subDays (d - 1) ⟨(nextYM y m).1, (nextYM y m).2, d⟩) :=
    subDays_succ_comm (d - 1) _
  have hcnt : (d - 1) + 1 = d := by omega
  rw [hcnt] at hstep
  rw [hstep, subDays_to_one _ _ d hd1]
  unfold predDay
  rw [if_neg (by norm_num)]
  rw [prevYM_nextYM y m hm1 hm2]

theorem get_format_date_unknown (dt : Ymd) (s : String)
    (h1 : s ≠ "first_date") (h2 : s ≠ "last_date") (h3 : s ≠ "prev_first_date")
    (h4 : s ≠ "prev_last_date") : get_format_date dt s = Except.error InvalidDate.mk := by
  unfold get_format_date
  rw [if_neg h1, if_neg h2, if_neg h3, if_neg h4]

/-- C9 counterexample: for a reference date whose day number exceeds the
length of the following month (here 2023-01-31, reachable from the
default-`today` constructor path), `last_date` returns January 28 instead
of the last calendar day January 31 — `relativedelta(months=1)` clamps
Jan 31 to Feb 28 and subtracting 31 days then lands on the 28th. -/
theorem C9_last_date_counterexample :
    get_format_date ⟨2023, 1, 31⟩ "last_date" = Except.ok ⟨2023, 1, 28⟩ ∧
    daysInMonth 2023 1 = 31 := by
  exact ⟨rfl, rfl⟩

/-- C9 (amended): for every valid reference date, `get_format_date`
accepts exactly the four documented mode strings and raises `InvalidDate`
on any other mode; `first_date`, `prev_first_date` and `prev_last_date`
return the first day of the month, and the first and last day of the
preceding month, respectively, and `last_date` returns the last day of the
month provided the reference day number does not exceed the length of the
following month (always true for dates built from a `'%Y-%m'` string,
whose day is 1). -/
theorem C9_reference_date_amended (dt : Ymd) (h : ValidYmd dt) :
    get_format_date dt "first_date" = Except.ok ⟨dt.y, dt.m, 1⟩ ∧
    (dt.d ≤ daysInMonth (nextYM dt.y dt.m).1 (nextYM dt.y dt.m).2 →
      get_format_date dt "last_date" = Except.ok ⟨dt.y, dt.m, daysInMonth dt.y dt.m⟩) ∧
    get_format_date dt "prev_first_date"
      = Except.ok ⟨(prevYM dt.y dt.m).1, (prevYM dt.y dt.m).2, 1⟩ ∧
    get_format_date dt "prev_last_date"
      = Except.ok ⟨(prevYM dt.y dt.m).1, (prevYM dt.y dt.m).2,
          daysInMonth (prevYM dt.y dt.m).1 (prevYM dt.y dt.m).2⟩ ∧
    ∀ s : String, s ≠ "first_date" → s ≠ "last_date" → s ≠ "prev_first_date" →
      s ≠ "prev_last_date" → get_format_date dt s = Except.error InvalidDate.mk := by
  refine ⟨?_, ?_, ?_, ?_, fun s h1 h2 h3 h4 => get_format_date_unknown dt s h1 h2 h3 h4⟩
  · show Except.ok (first_date dt) = _
    rw [first_date_eq dt h]
  · intro hclamp
    have hld : get_format_date dt "last_date" = Except.ok (last_date dt) := by
      unfold get_format_date
      rw [if_neg (by decide), if_pos rfl]
    rw [hld, last_date_eq dt h hclamp]
  · have hpf : get_format_date dt "prev_first_date" = Except.ok (prev_first_date dt) := by
      unfold get_format_date
      rw [if_neg (by decide), if_neg (by decide), if_pos rfl]
    rw [hpf, prev_first_date_eq dt h]
  · have hpl : get_format_date dt "prev_last_date" = Except.ok (prev_last_date dt) := by
      unfold get_format_date
      rw [if_neg (by decide), if_neg (by decide), if_neg (by decide), if_pos rfl]
    rw [hpl, prev_last_date_eq dt h]

/-! ## C6: the effective-annual / monthly-value round trip -/

theorem round2_neg_hundred : round2 (-100 : ℝ) = -100 := by
  unfold round2
  rw [show (100:ℝ) * (-100) = (((-10000 : ℤ)) : ℝ) by norm_num, roundHE_intCast]
  norm_num

theorem mv_at_m100 : to_monthly_value (-100 : ℝ) = -100 := by
  unfold to_monthly_value
  rw [show (1 + (-100:ℝ)/100) = 0 by norm_num]
  rw [Real.zero_rpow (by norm_num : ((30:ℝ)/360) ≠ 0)]
  rw [show ((0:ℝ) - 1) * 100 = -100 by norm_num]
  exact round2_neg_hundred

/-- C6 counterexample: at the nominal rate r = -99.9 the effective-annual
conversion rounds to exactly -100, and the monthly-value conversion of
-100 is -100, so the round trip errs by 0.1 — far beyond the 2-decimal
rounding tolerance the claim allows. -/
theorem C6_roundtrip_counterexample :
    to_effective_annual (-999/10) = -100 ∧
    ¬ (|to_monthly_value ((to_effective_annual (-999/10) : ℚ) : ℝ)
        - ((-999/10 : ℚ) : ℝ)| ≤ 1/100) := by
  refine ⟨ea_spec_m999, ?_⟩
  rw [ea_spec_m999]
  rw [show (((-100 : ℚ)) : ℝ) = (-100 : ℝ) by norm_num]
  rw [mv_at_m100]
  rw [show (((-999/10 : ℚ)) : ℝ) = (-999/10 : ℝ) by norm_num]
  rw [show (-100 : ℝ) - (-999/10) = -(1/10) by norm_num, abs_neg,
    abs_of_pos (by norm_num : (0:ℝ) < 1/10)]
  norm_num

theorem pow12_bernoulli (x e : ℝ) (hx : 1 ≤ x) (he : 0 ≤ e) :
    x ^ (12:ℕ) + 12 * e ≤ (x + e) ^ (12:ℕ) := by
  have hx0 : (0:ℝ) < x := lt_of_lt_of_le one_pos hx
  have ha : (0:ℝ) ≤ e / x := by positivity
  have h1 := one_add_mul_le_pow (by linarith : (-2:ℝ) ≤ e / x) 12
  push_cast at h1
  have h2 : x ^ (12:ℕ) * (1 + 12 * (e / x)) ≤ x ^ (12:ℕ) * (1 + e / x) ^ (12:ℕ) :=
    mul_le_mul_of_nonneg_left h1 (by positivity)
  have h3 : x ^ (12:ℕ) * (1 + 12 * (e / x)) = x ^ (12:ℕ) + 12 * e * x ^ (11:ℕ) := by
    field_simp
    ring
  have hx11 : (1:ℝ) ≤ x ^ (11:ℕ) := by
    calc (1:ℝ) = 1 ^ (11:ℕ) := (one_pow _).symm
      _ ≤ x ^ (11:ℕ) := pow_le_pow_left₀ zero_le_one hx 11
  have h4 : x ^ (12:ℕ) + 12 * e ≤ x ^ (12:ℕ) + 12 * e * x ^ (11:ℕ) := by nlinarith
  calc x ^ (12:ℕ) + 12 * e ≤ x ^ (12:ℕ) + 12 * e * x ^ (11:ℕ) := h4
    _ = x ^ (12:ℕ) * (1 + 12 * (e / x)) := h3.symm
    _ ≤ x ^ (12:ℕ) * (1 + e / x) ^ (12:ℕ) := h2
    _ = (x + e) ^ (12:ℕ) := by
        rw [← mul_pow]
        congr 1
        field_simp

theorem pow12_root (c : ℝ) (hc : 0 ≤ c) : (c ^ (12:ℕ)) ^ ((1:ℝ)/12) = c := by
  rw [← Real.rpow_natCast c 12, ← Real.rpow_mul hc]
  rw [show ((12:ℕ) : ℝ) * ((1:ℝ)/12) = 1 by norm_num, Real.rpow_one]

/-- C6 (amended): for every nonnegative nominal rate r, the composition
`to_monthly_value(to_effective_annual(r))` recovers r to within 1/100 —
the tolerance of the two 2-decimal roundings (each contributes at most a
half-ulp of 0.005, the first one attenuated by the 12th root).  For rates
approaching -100 the bound fails (see the counterexample). -/
theorem C6_roundtrip_amended (r : ℚ) (hr : 0 ≤ r) :
    |to_monthly_value ((to_effective_annual r : ℚ) : ℝ) - (r : ℝ)| ≤ 1/100 := by
  have hg0 : (0:ℚ) ≤ (((1 + r/100) ^ (12:ℕ)) - 1) * 100 := by
    have hd : (0:ℚ) ≤ r/100 := by positivity
    have h1 : (1:ℚ) ≤ 1 + r/100 := by linarith
    have h2 : (1:ℚ) ≤ (1 + r/100) ^ (12:ℕ) := by
      calc (1:ℚ) = 1 ^ (12:ℕ) := (one_pow _).symm
        _ ≤ (1 + r/100) ^ (12:ℕ) := pow_le_pow_left₀ zero_le_one h1 12
    linarith
  have hq0 : (0:ℚ) ≤ to_effective_annual r := round2_nonneg hg0
  have hqb : |to_effective_annual r - (((1 + r/100) ^ (12:ℕ)) - 1) * 100| ≤ 1/200 :=
    abs_round2_sub_le _
  set u : ℝ := 1 + (r:ℝ)/100 with hu
  have hr0R : (0:ℝ) ≤ (r:ℝ) := by exact_mod_cast hr
  have hu1 : (1:ℝ) ≤ u := by
    rw [hu]
    have h : (0:ℝ) ≤ (r:ℝ)/100 := by positivity
    linarith
  set t : ℝ := 1 + ((to_effective_annual r : ℚ) : ℝ)/100 with ht
  have ht1 : (1:ℝ) ≤ t := by
    rw [ht]
    have h : (0:ℝ) ≤ ((to_effective_annual r : ℚ) : ℝ) := by exact_mod_cast hq0
    linarith
  have hgR : ((((((1 + r/100) ^ (12:ℕ)) - 1) * 100 : ℚ)) : ℝ) = (u ^ (12:ℕ) - 1) * 100 := by
    rw [hu]
    push_cast
    ring
  have hqbR : |((to_effective_annual r : ℚ) : ℝ) - (u ^ (12:ℕ) - 1) * 100| ≤ 1/200 := by
    have h0 : ((|to_effective_annual r - (((1 + r/100) ^ (12:ℕ)) - 1) * 100| : ℚ) : ℝ)
        ≤ (((1:ℚ)/200 : ℚ) : ℝ) := by exact_mod_cast hqb
    rw [Rat.cast_abs, Rat.cast_sub, hgR] at h0
    exact h0.trans (by norm_num)
  have htu : |t - u ^ (12:ℕ)| ≤ 1/20000 := by
    have hrw : t - u ^ (12:ℕ)
        = (((to_effective_annual r : ℚ) : ℝ) - (u ^ (12:ℕ) - 1) * 100) / 100 := by
      rw [ht]
      ring
    rw [hrw, abs_div, abs_of_pos (by norm_num : (0:ℝ) < 100)]
    rw [div_le_iff₀ (by norm_num : (0:ℝ) < 100)]
    linarith [hqbR]
  have habs := abs_le.mp htu
  have h0t : (0:ℝ) ≤ t := le_trans zero_le_one ht1
  have hup2 : t ^ ((1:ℝ)/12) ≤ u + 1/240000 := by
    have hB := pow12_bernoulli u (1/240000) hu1 (by norm_num)
    have hup : t ≤ (u + 1/240000) ^ (12:ℕ) := by linarith
    calc t ^ ((1:ℝ)/12) ≤ ((u + 1/240000) ^ (12:ℕ)) ^ ((1:ℝ)/12) :=
          Real.rpow_le_rpow h0t hup (by norm_num)
      _ = u + 1/240000 := pow12_root _ (by linarith)
  have hlow2 : u - 1/240000 ≤ t ^ ((1:ℝ)/12) := by
    by_cases hcase : u ≤ 1 + 1/240000
    · have h1t : (1:ℝ) ≤ t ^ ((1:ℝ)/12) := Real.one_le_rpow ht1 (by norm_num)
      linarith
    · push_neg at hcase
      have hw1 : (1:ℝ) ≤ u - 1/240000 := by linarith
      have hB2 := pow12_bernoulli (u - 1/240000) (1/240000) hw1 (by norm_num)
      rw [show u - 1/240000 + 1/240000 = u by ring] at hB2
      have hlow : (u - 1/240000) ^ (12:ℕ) ≤ t := by linarith
      calc u - 1/240000 = ((u - 1/240000) ^ (12:ℕ)) ^ ((1:ℝ)/12) :=
            (pow12_root _ (by linarith)).symm
        _ ≤ t ^ ((1:ℝ)/12) := Real.rpow_le_rpow (by positivity) hlow (by norm_num)
  have hroot : |t ^ ((1:ℝ)/12) - u| ≤ 1/240000 := by
    rw [abs_le]
    constructor <;> linarith
  have hbody : to_monthly_value ((to_effective_annual r : ℚ) : ℝ)
      = round2 ((t ^ ((1:ℝ)/12) - 1) * 100) := by
    unfold to_monthly_value
    rw [← ht, show ((30:ℝ)/360) = (1:ℝ)/12 by norm_num]
  have hz := abs_round2_sub_le ((t ^ ((1:ℝ)/12) - 1) * 100)
  have hr100 : (r:ℝ) = (u - 1) * 100 := by
    rw [hu]
    ring
  have hsplit : to_monthly_value ((to_effective_annual r : ℚ) : ℝ) - (r : ℝ)
      = (round2 ((t ^ ((1:ℝ)/12) - 1) * 100) - (t ^ ((1:ℝ)/12) - 1) * 100)
        + ((t ^ ((1:ℝ)/12) - 1) * 100 - (r : ℝ)) := by
    rw [hbody]
    ring
  have hsecond : |(t ^ ((1:ℝ)/12) - 1) * 100 - (r : ℝ)| ≤ 1/2400 := by
    rw [hr100, show (t ^ ((1:ℝ)/12) - 1) * 100 - (u - 1) * 100
        = 100 * (t ^ ((1:ℝ)/12) - u) by ring]
    rw [abs_mul, abs_of_pos (by norm_num : (0:ℝ) < 100)]
    rw [show (1:ℝ)/2400 = 100 * (1/240000) by norm_num]
    exact mul_le_mul_of_nonneg_left hroot (by norm_num)
  calc |to_monthly_value ((to_effective_annual r : ℚ) : ℝ) - (r : ℝ)|
      = |(round2 ((t ^ ((1:ℝ)/12) - 1) * 100) - (t ^ ((1:ℝ)/12) - 1) * 100)
        + ((t ^ ((1:ℝ)/12) - 1) * 100 - (r : ℝ))| := by rw [hsplit]
    _ ≤ |round2 ((t ^ ((1:ℝ)/12) - 1) * 100) - (t ^ ((1:ℝ)/12) - 1) * 100|
        + |(t ^ ((1:ℝ)/12) - 1) * 100 - (r : ℝ)| := abs_add _ _
    _ ≤ 1/200 + 1/2400 := add_le_add hz hsecond
    _ ≤ 1/100 := by norm_num

/-! ## Matched-path evaluation of the reconciliation (shared helpers) -/

theorem df_complete_matched :
    df_complete [tx_totalero] [master_match] ["2024-01"]
      = [⟨0, "2024-01", 0⟩] := by
  unfold df_complete monthJoin
  simp [matchesKey, tx_totalero, master_match]

theorem tasas_matched_eval :
    tasas_originales [tx_totalero] [master_match] ["2024-01"]
      = some [OutRow.mk tx_totalero (some 0)] := by
  have hnd : (([tx_totalero].map TxRow.llave)).Nodup := by simp
  rw [tasas_originales_some hnd]
  have hsd : df_sinDuplicados [tx_totalero] [master_match] ["2024-01"]
      = [⟨0, "2024-01", 0⟩] := by
    unfold df_sinDuplicados
    rw [df_complete_matched]
    rfl
  have hcr : cruce_mes_left [tx_totalero] [master_match] ["2024-01"]
      = [(tx_totalero, some ⟨0, "2024-01", 0⟩)] := by
    unfold cruce_mes_left
    rw [hsd]
    rfl
  have hcomp : complete_rows [tx_totalero] [master_match] ["2024-01"]
      = [(tx_totalero, some ⟨0, "2024-01", 0⟩)] := by
    unfold complete_rows
    rw [hcr]
    rfl
  have hmiss : missing_rows [tx_totalero] [master_match] ["2024-01"] = [] := by
    unfold missing_rows
    rw [hcr]
    rfl
  rw [hcomp, hmiss]
  simp [round1_zero]

/-! ## Witnesses -/

theorem interes_ea_estimacion_dos : interes_ea_estimacion 2 = 1341/50 := interes_ea_dos

/-- Witness for C1 at threshold 28, shift +1, one row
(balance 1000, nominal 2%, original 30%). -/
theorem C1_usury_sensitivity_witness :
    sens_pair 28 1 [fila_sens] = (1000, 109/5) := by
  have h := (C1_usury_sensitivity 28 1 [fila_sens]).1 (by norm_num)
  rw [h]
  have hdec : (decide ((28:ℚ) < fila_sens.tasa_ea_original)) = true := by
    rw [decide_eq_true_eq]
    show (28:ℚ) < 30
    norm_num
  rw [show List.filter (fun r => decide ((28:ℚ) < r.tasa_ea_original)) [fila_sens]
      = [fila_sens] by rw [List.filter_cons, if_pos hdec]; rfl]
  simp only [List.map_cons, List.map_nil, List.sum_cons, List.sum_nil]
  rw [show fila_sens.tasa_interes = 2 from rfl, interes_ea_estimacion_dos]
  rw [show min fila_sens.tasa_ea_original ((28:ℚ) + 1) = 29 from by
    rw [show fila_sens.tasa_ea_original = 30 from rfl]; norm_num [min_def]]
  rw [show fila_sens.saldo_actual_trasaccion = 1000 from rfl]
  norm_num

/-- Witness for C2 (amended): the matched deferred-count-1 sample row gets
original rate 0. -/
theorem C2_deferred_one_amended_witness :
    tasas_originales [tx_totalero] [master_match] ["2024-01"]
      = some [OutRow.mk tx_totalero (some 0)] ∧
    (OutRow.mk tx_totalero (some (0:ℚ))).tasa_ea = some 0 := by
  refine ⟨tasas_matched_eval, ?_⟩
  have h := (C2_deferred_one_amended [tx_totalero] [master_match] ["2024-01"]
    [OutRow.mk tx_totalero (some 0)] tasas_matched_eval
    (OutRow.mk tx_totalero (some 0)) (List.mem_singleton.mpr rfl) rfl).1
  refine h ?_
  rw [df_complete_matched]
  exact ⟨⟨0, "2024-01", 0⟩, List.mem_singleton.mpr rfl, rfl⟩

/-- Witness for C3 on the zero-rate sample with empty reference. -/
theorem C3_reconciliation_witness :
    (([OutRow.mk tx_simple (some (0:ℚ))]).map OutRow.tx).Perm [tx_simple] ∧
    ([OutRow.mk tx_simple (some (0:ℚ))]).length = ([tx_simple]).length ∧
    ∀ r ∈ [OutRow.mk tx_simple (some (0:ℚ))], r.tasa_ea.isSome :=
  C3_reconciliation_preserves_rows [tx_simple] [] ["2024-01"] _ tasas_simple_eval

/-- Witness for C6 (amended) at r = 0. -/
theorem C6_roundtrip_amended_witness :
    (0:ℚ) ≤ 0 ∧ |to_monthly_value ((to_effective_annual 0 : ℚ) : ℝ) - ((0:ℚ) : ℝ)| ≤ 1/100 :=
  ⟨le_refl 0, C6_roundtrip_amended 0 (le_refl 0)⟩

/-- Witness for C8 (amended) on the zero-rate sample. -/
theorem C8_empty_reference_amended_witness :
    tasas_originales [tx_simple] [] ["2024-01"]
      = some ([tx_simple].map (fun t =>
          OutRow.mk t (some (round1 (interes_ea_tasas_originales t.tasa_interes))))) :=
  C8_empty_reference_amended [tx_simple] [] ["2024-01"] (by simp) rfl

/-- Witness for C9 (amended) at the valid date 2024-04-10. -/
theorem C9_reference_date_witness :
    ValidYmd ⟨2024, 4, 10⟩ ∧
    get_format_date ⟨2024, 4, 10⟩ "last_date" = Except.ok ⟨2024, 4, 30⟩ := by
  have hv : ValidYmd ⟨2024, 4, 10⟩ := ⟨by norm_num, by norm_num, by norm_num, by decide⟩
  refine ⟨hv, ?_⟩
  exact (C9_reference_date_amended ⟨2024, 4, 10⟩ hv).2.1 (by decide)

/-- Witness for C10 on the zero-rate sample. -/
theorem C10_original_rate_witness :
    ∃ k : ℤ, (OutRow.mk tx_simple (some (0:ℚ))).tasa_ea = some ((k:ℚ)/10) :=
  C10_original_rate_one_decimal [tx_simple] [] ["2024-01"] _ tasas_simple_eval
    (OutRow.mk tx_simple (some 0)) (List.mem_singleton.mpr rfl)

end TC
